import Mathlib

/-!
Shallow embedding of the retrieval-augmented school-library chatbot
(`src/app.py`) and verification of its specified properties.

Conventions of the embedding:
* Python strings are Lean `String`s; `len`/indexing counts code points, so
  paragraph wrapping is modelled on `List Char`.
* Python f-strings become explicit `++` concatenations.
* Python truthiness of strings (`s or t`) becomes `pyOr`.
* Exceptions become `Except`: a raised exception is `Except.error`, and the
  LangChain runnable composition short-circuits on the first error, as the
  underlying Python call chain does.
* External collaborators (the Chroma retriever, the Upstage chat model, the
  repr of a LangChain Document) are parameters of the pipeline functions;
  their observable contracts follow section 4.2 of the spec.
-/

/-- Python `s or t` for strings: the empty string is falsy. -/
def pyOr (s t : String) : String :=
  if s = "" then t else s

/-- Student profile fields as read from the sidebar widgets
(`grade`, `interest`, `level` in `src/app.py`). -/
structure StudentProfile where
  grade : String
  interest : String
  level : String
deriving DecidableEq

/-- Line 317 of `src/app.py`:
`profile = f"학년:{grade}, 관심:{interest or '없음'}, 읽기수준:{level}"`. -/
def profileString (p : StudentProfile) : String :=
  "학년:" ++ p.grade ++ ", 관심:" ++ pyOr p.interest "없음" ++ ", 읽기수준:" ++ p.level

/-- Line 286 of `src/app.py` (sidebar PDF report), textually the same
f-string as line 317. -/
def profile_for_pdf (p : StudentProfile) : String :=
  "학년:" ++ p.grade ++ ", 관심:" ++ pyOr p.interest "없음" ++ ", 읽기수준:" ++ p.level

/-- Lines 320-323 of `src/app.py`: the query-rewrite step.  Only in the
book-recommendation mode the profile block is appended to the utterance. -/
def question_for_rag (menu user_input : String) (p : StudentProfile) : String :=
  if menu = "책 추천" then
    user_input ++ "\n\n[학생 정보] " ++ profileString p
  else
    user_input

/-- `BASE_PROMPT` of `src/app.py` (the triple-quoted persona text after
`.strip()`). -/
def BASE_PROMPT : String :=
  "너는 학교도서관에서 학생들의 독서활동을 도와주는 도우미야.\n아래 \x27참고 문서(context)\x27 내용을 바탕으로, 학생의 질문에 대해\n친절하고 구체적인 답변을 한국어로 작성해줘.\n\n가능하면:\n- 도서관 이용 규정, 대출/반납/연장 방법\n- 책 고르는 방법, 독후감 작성법, 독서 토론 방법\n등을 중심으로 설명해 줘.\n\n만약 문서에 정보가 없으면 모르는 부분은 솔직하게 모른다고 말해."

/-- `MODE_PROMPT["도서관 이용 안내"]` of `src/app.py`. -/
def MODE_PROMPT_LIBRARY : String :=
  "[도서관 이용 안내 모드 지침]\n- 도서관 이용 규정, 대출/반납/연장, 운영시간, 검색/신청 방법을 우선적으로 안내해줘.\n- 절차가 있으면 단계별로 설명해줘."

/-- `MODE_PROMPT["책 추천"]` of `src/app.py`. -/
def MODE_PROMPT_RECOMMEND : String :=
  "[책 추천 모드 지침]\n- 학생 정보(학년/관심 주제/읽기 수준)를 반영해서 추천해줘.\n- 가능하면 추천 이유(왜 이 책이 맞는지)를 짧게 덧붙여줘.\n- 문서 근거가 부족하면 일반적인 추천 기준으로 안내해줘."

/-- `MODE_PROMPT["독서활동"]` of `src/app.py`. -/
def MODE_PROMPT_ACTIVITY : String :=
  "[독서활동 모드 지침]\n- 읽기/쓰기/토론 중 어떤 활동인지 구분해서 안내해줘.\n- 학생이 바로 써먹을 수 있는 문장 예시나 질문 예시를 제시해줘."

/-- The `MODE_PROMPT` dict of `src/app.py` as a partial lookup (keys are the
three menu labels). -/
def MODE_PROMPT (menu : String) : Option String :=
  if menu = "도서관 이용 안내" then some MODE_PROMPT_LIBRARY
  else if menu = "책 추천" then some MODE_PROMPT_RECOMMEND
  else if menu = "독서활동" then some MODE_PROMPT_ACTIVITY
  else none

/-- Python `str(xs)` for a list, given the repr of an element: the template
formatting of `{context}` applies `str` to the raw list the retriever
returned (no `format_docs` join exists in `src/app.py`). -/
def pyListStr (elemRepr : α → String) (xs : List α) : String :=
  "[" ++ String.intercalate ", " (xs.map elemRepr) ++ "]"

/-- Lines 178-195 of `src/app.py`: the `ChatPromptTemplate` text
(`BASE_PROMPT` plus the slotted tail), with all five variables substituted. -/
def renderPrompt (mode_guide menu profile context question : String) : String :=
  BASE_PROMPT ++ "\n" ++ mode_guide ++ "\n\n" ++ "[현재 기능]" ++ "\n" ++ menu
    ++ "\n\n" ++ "[학생 정보]" ++ "\n" ++ profile
    ++ "\n\n" ++ "[참고 문서]" ++ "\n" ++ context
    ++ "\n\n" ++ "[학생의 질문]" ++ "\n" ++ question ++ "\n"

/-- The dict passed to `rag_chain.invoke` (lines 327-332 of `src/app.py`). -/
structure ChainInput where
  question : String
  profile : String
  menu : String
  mode_guide : String
deriving DecidableEq

/-- Lines 317-332 of `src/app.py`: the input assembled for one turn.
`question` carries `question_for_rag`; the chain maps it verbatim into both
the retriever call and the prompt question slot. -/
def invokeInput (menu user_input : String) (p : StudentProfile) : ChainInput :=
  { question := question_for_rag menu user_input p
  , profile := profileString p
  , menu := menu
  , mode_guide := (MODE_PROMPT menu).getD "" }

/-- Typed failure conditions of the two fallible pipeline steps (section 7
of the spec). -/
inductive PipelineError where
  | retrievalUnavailable
  | generationFailed
deriving DecidableEq

/-- Lines 199-210 of `src/app.py`: the runnable
`{context, question, profile, menu, mode_guide} | prompt | llm | StrOutputParser`.
`retrieve` is the Chroma retriever (may fail per the section 4.2 contract:
`RetrievalUnavailable` when the index is not loaded), `docRepr` is the
Python repr of one retrieved document, `llm` is the chat-model call.  An
error in either fallible step aborts the chain, as a raised Python
exception aborts the LangChain composition. -/
def rag_chain_invoke (retrieve : String → Except PipelineError (List String))
    (docRepr : String → String)
    (llm : String → Except PipelineError String)
    (x : ChainInput) : Except PipelineError String := do
  let docs ← retrieve x.question
  llm (renderPrompt x.mode_guide x.menu x.profile (pyListStr docRepr docs) x.question)

/-- One entry of `st.session_state["messages"]`. -/
structure Message where
  role : String
  content : String
deriving DecidableEq

/-- Lines 312-335 of `src/app.py`: one chat turn.  The user message is
appended first; the assistant message is appended only after
`rag_chain.invoke` returns, so a raised generation error leaves the history
with the user entry only.  Returns the resulting history and the outcome. -/
def chatTurn (invoke : ChainInput → Except PipelineError String)
    (menu : String) (p : StudentProfile)
    (messages : List Message) (user_input : String) :
    List Message × Except PipelineError String :=
  let h1 := messages ++ [{ role := "user", content := user_input }]
  match invoke (invokeInput menu user_input p) with
  | Except.error e => (h1, Except.error e)
  | Except.ok ans => (h1 ++ [{ role := "assistant", content := ans }], Except.ok ans)

/-- Lines 237-262 of `src/app.py`: the sidebar.  The profile widgets exist
only in the 책 추천 branch; in the other branches the module-level defaults
`grade = "없음"`, `interest = ""`, `level = "없음"` remain. -/
def sidebarProfile (menu : String) (widgets : StudentProfile) : StudentProfile :=
  if menu = "책 추천" then widgets
  else { grade := "없음", interest := "", level := "없음" }

/-- Observable filesystem facts `download_and_unpack_chroma_db` branches on. -/
structure StoreState where
  chromaDirExists : Bool
  chromaDirNonempty : Bool
  zipExists : Bool
deriving DecidableEq

/-- Side effects `download_and_unpack_chroma_db` can perform, in order. -/
inductive ProvisionAction where
  | removeZip
  | downloadZip
  | showError
  | extractZip
deriving DecidableEq

/-- Environment facts outside the function: the size of the downloaded zip,
whether it is a readable archive, and whether extraction yields a non-empty
`chroma_db` directory. -/
structure DownloadEnv where
  zipSize : Nat
  badZip : Bool
  extractedNonempty : Bool

/-- Lines 140-162 of `src/app.py`: provisioning of the vector store.  If
`chroma_db` exists and is non-empty it returns immediately; otherwise it
removes a stale zip, downloads, and extracts, showing an error (and
returning normally) when the zip is undersized or unreadable. -/
def download_and_unpack_chroma_db (s : StoreState) (env : DownloadEnv) :
    StoreState × List ProvisionAction :=
  if s.chromaDirExists && s.chromaDirNonempty then
    (s, [])
  else
    let step1 : StoreState × List ProvisionAction :=
      if s.zipExists then ({ s with zipExists := false }, [ProvisionAction.removeZip])
      else (s, [])
    let s2 : StoreState := { step1.1 with zipExists := true }
    let acts2 := step1.2 ++ [ProvisionAction.downloadZip]
    if env.zipSize < 1000 then
      (s2, acts2 ++ [ProvisionAction.showError])
    else if env.badZip then
      (s2, acts2 ++ [ProvisionAction.showError])
    else
      ({ s2 with chromaDirExists := true, chromaDirNonempty := env.extractedNonempty },
       acts2 ++ [ProvisionAction.extractZip])

/-- The `while len(paragraph) > max_chars` loop of `wrap_lines`
(lines 111-113 of `src/app.py`), totalised with fuel.  One iteration chops
`max_chars` characters off, so `p.length` fuel is enough whenever
`1 ≤ max_chars`; for `max_chars = 0` the Python loop does not terminate on a
non-empty paragraph, while this function stops when fuel runs out (all
claims assume `1 ≤ max_chars`). -/
def wrapParaGo (fuel max_chars : Nat) (p : List Char) : List (List Char) :=
  match fuel with
  | 0 => [p]
  | fuel' + 1 =>
    if max_chars < p.length then
      p.take max_chars :: wrapParaGo fuel' max_chars (p.drop max_chars)
    else
      [p]

/-- Lines 108-115 of `src/app.py`, per-paragraph part of `wrap_lines`: chop
one paragraph into chunks of at most `max_chars` characters, the last chunk
being whatever remains. -/
def wrapPara (max_chars : Nat) (p : List Char) : List (List Char) :=
  wrapParaGo p.length max_chars p

/-- Python `text.split("\n")` on a character list; the split of the empty
string is `[[]]`, as in Python. -/
def splitNl : List Char → List (List Char)
  | [] => [[]]
  | c :: cs =>
    if c = '\n' then [] :: splitNl cs
    else
      match splitNl cs with
      | [] => [[c]]
      | p :: ps => (c :: p) :: ps

/-- Lines 108-115 of `src/app.py`: `wrap_lines` flattens the per-paragraph
chunks in paragraph order. -/
def wrap_lines (text : List Char) (max_chars : Nat) : List (List Char) :=
  (splitNl text).flatMap (wrapPara max_chars)

-- Sanity examples (concrete evaluations of the embedding).
example : question_for_rag "독서활동" "서평 쓰는 법" { grade := "없음", interest := "", level := "없음" } = "서평 쓰는 법" := by decide

example : question_for_rag "책 추천" "추리소설 추천해줘" { grade := "중등", interest := "추리", level := "보통" }
    = "추리소설 추천해줘\n\n[학생 정보] 학년:중등, 관심:추리, 읽기수준:보통" := by decide

example : wrap_lines "abcdef\ngh".data 3 = ["abc".data, "def".data, "gh".data] := by decide

example : pyListStr (fun s => s) ([] : List String) = "[]" := by decide

/-! ## Claim theorems -/

/-- C2 (corrected part): the claim states the profile block appended in
book-recommendation mode reads `[학생 정보] grade:<g>, interest:<i>, level:<l>`,
so for the scenario-B inputs the retrieval query would end in
`grade:중등, interest:추리, level:보통`; the code labels the fields
`학년:/관심:/읽기수준:` instead, so the claimed exact string is not produced. -/
theorem claim_c2_counterexample :
    question_for_rag "책 추천" "추리소설 추천해줘"
        { grade := "중등", interest := "추리", level := "보통" }
      ≠ "추리소설 추천해줘\n\n[학생 정보] grade:중등, interest:추리, level:보통" := by
  decide

/-- C2 (amended): in book-recommendation mode the retrieval query is the
utterance, a blank line, and the profile block
`[학생 정보] 학년:<g>, 관심:<i|없음>, 읽기수준:<l>`; for scenario B the query is
exactly `추리소설 추천해줘\n\n[학생 정보] 학년:중등, 관심:추리, 읽기수준:보통`. -/
theorem claim_c2_amended :
    (∀ (utt : String) (p : StudentProfile),
      question_for_rag "책 추천" utt p
        = utt ++ "\n\n[학생 정보] "
            ++ ("학년:" ++ p.grade ++ ", 관심:" ++ pyOr p.interest "없음"
                  ++ ", 읽기수준:" ++ p.level)) ∧
    question_for_rag "책 추천" "추리소설 추천해줘"
        { grade := "중등", interest := "추리", level := "보통" }
      = "추리소설 추천해줘\n\n[학생 정보] 학년:중등, 관심:추리, 읽기수준:보통" := by
  constructor
  · intro utt p
    simp [question_for_rag, profileString, String.append_assoc]
  · decide

/-- C3: for every mode label other than `책 추천` (hence every mode of the
spec other than BookRecommendation), the query-rewrite step returns the
utterance unchanged, whatever the profile. -/
theorem claim_c3_identity (menu utt : String) (p : StudentProfile)
    (h : menu ≠ "책 추천") :
    question_for_rag menu utt p = utt := by
  simp [question_for_rag, h]

theorem claim_c3_witness :
    question_for_rag "도서관 이용 안내" "대출 기간이 어떻게 돼?"
        { grade := "없음", interest := "", level := "없음" }
      = "대출 기간이 어떻게 돼?" :=
  claim_c3_identity "도서관 이용 안내" "대출 기간이 어떻게 돼?"
    { grade := "없음", interest := "", level := "없음" } (by decide)

/-- C4: an empty interest topic renders as the literal sentinel `없음`
(never an empty field) in the profile summary, and that same summary is
both the prompt profile slot and the block appended to the retrieval query
in book-recommendation mode; the PDF profile string agrees. -/
theorem claim_c4_interest_sentinel (p : StudentProfile) (utt : String)
    (h : p.interest = "") :
    pyOr p.interest "없음" = "없음" ∧
    profileString p
      = "학년:" ++ p.grade ++ ", 관심:" ++ "없음" ++ ", 읽기수준:" ++ p.level ∧
    profile_for_pdf p = profileString p ∧
    (invokeInput "책 추천" utt p).profile = profileString p ∧
    question_for_rag "책 추천" utt p = utt ++ "\n\n[학생 정보] " ++ profileString p := by
  have hp : pyOr p.interest "없음" = "없음" := by simp [pyOr, h]
  refine ⟨hp, ?_, rfl, rfl, rfl⟩
  simp [profileString, hp]

theorem claim_c4_witness :
    pyOr "" "없음" = "없음" ∧
    profileString { grade := "중등", interest := "", level := "보통" }
      = "학년:" ++ "중등" ++ ", 관심:" ++ "없음" ++ ", 읽기수준:" ++ "보통" ∧
    profile_for_pdf { grade := "중등", interest := "", level := "보통" }
      = profileString { grade := "중등", interest := "", level := "보통" } ∧
    (invokeInput "책 추천" "책 추천해줘"
        { grade := "중등", interest := "", level := "보통" }).profile
      = profileString { grade := "중등", interest := "", level := "보통" } ∧
    question_for_rag "책 추천" "책 추천해줘"
        { grade := "중등", interest := "", level := "보통" }
      = "책 추천해줘" ++ "\n\n[학생 정보] "
          ++ profileString { grade := "중등", interest := "", level := "보통" } :=
  claim_c4_interest_sentinel { grade := "중등", interest := "", level := "보통" }
    "책 추천해줘" rfl

/-- C10: in every turn whose mode is not `책 추천`, the profile widgets never
ran, so the defaults survive and the prompt profile slot is the constant
`학년:없음, 관심:없음, 읽기수준:없음` whatever the widget values would have been. -/
theorem claim_c10_default_profile (menu : String) (w : StudentProfile)
    (utt : String) (h : menu ≠ "책 추천") :
    (invokeInput menu utt (sidebarProfile menu w)).profile
      = "학년:없음, 관심:없음, 읽기수준:없음" := by
  have hs : sidebarProfile menu w
      = { grade := "없음", interest := "", level := "없음" } := by
    simp [sidebarProfile, h]
  rw [hs]
  show profileString { grade := "없음", interest := "", level := "없음" }
      = "학년:없음, 관심:없음, 읽기수준:없음"
  decide

theorem claim_c10_witness :
    (invokeInput "독서활동" "역사책 알려줘"
        (sidebarProfile "독서활동"
          { grade := "고등", interest := "역사", level := "어려움" })).profile
      = "학년:없음, 관심:없음, 읽기수준:없음" :=
  claim_c10_default_profile "독서활동"
    { grade := "고등", interest := "역사", level := "어려움" }
    "역사책 알려줘" (by decide)

/-- C1 (corrected part): the claim states the question slot always equals
the original utterance; in book-recommendation mode the turn handler passes
the rewritten query (`question_for_rag`) as `question`, and the chain maps
that value verbatim into the prompt question slot, so there the slot text
differs from the utterance. -/
theorem claim_c1_counterexample :
    (invokeInput "책 추천" "추리소설 추천해줘"
        { grade := "중등", interest := "추리", level := "보통" }).question
      ≠ "추리소설 추천해줘" := by
  decide

/-- C1 (amended): for every mode, the question slot carries exactly the
retrieval-query string `question_for_rag`, and the pipeline renders the
prompt with that string in the question slot; for every mode other than
BookRecommendation that string is the unmodified utterance, while in
BookRecommendation mode the rewritten query (utterance plus profile block)
itself appears as the question slot text. -/
theorem claim_c1_amended (menu utt : String) (p : StudentProfile)
    (retrieve : String → Except PipelineError (List String))
    (docRepr : String → String)
    (llm : String → Except PipelineError String)
    (docs : List String)
    (hr : retrieve (question_for_rag menu utt p) = Except.ok docs) :
    (invokeInput menu utt p).question = question_for_rag menu utt p ∧
    (menu ≠ "책 추천" → (invokeInput menu utt p).question = utt) ∧
    (invokeInput "책 추천" utt p).question
      = utt ++ "\n\n[학생 정보] " ++ profileString p ∧
    rag_chain_invoke retrieve docRepr llm (invokeInput menu utt p)
      = llm (renderPrompt ((MODE_PROMPT menu).getD "") menu (profileString p)
          (pyListStr docRepr docs) (question_for_rag menu utt p)) := by
  refine ⟨rfl, ?_, ?_, ?_⟩
  · intro h
    simp [invokeInput, question_for_rag, h]
  · simp [invokeInput, question_for_rag]
  · unfold rag_chain_invoke
    simp only [invokeInput, hr]
    rfl

theorem claim_c1_witness :
    (invokeInput "책 추천" "추리소설 추천해줘"
        { grade := "중등", interest := "추리", level := "보통" }).question
      = question_for_rag "책 추천" "추리소설 추천해줘"
          { grade := "중등", interest := "추리", level := "보통" } ∧
    ("책 추천" ≠ "책 추천" →
      (invokeInput "책 추천" "추리소설 추천해줘"
          { grade := "중등", interest := "추리", level := "보통" }).question
        = "추리소설 추천해줘") ∧
    (invokeInput "책 추천" "추리소설 추천해줘"
        { grade := "중등", interest := "추리", level := "보통" }).question
      = "추리소설 추천해줘" ++ "\n\n[학생 정보] "
          ++ profileString { grade := "중등", interest := "추리", level := "보통" } ∧
    rag_chain_invoke (fun _ => Except.ok []) (fun s => s) (fun s => Except.ok s)
        (invokeInput "책 추천" "추리소설 추천해줘"
          { grade := "중등", interest := "추리", level := "보통" })
      = Except.ok (renderPrompt ((MODE_PROMPT "책 추천").getD "") "책 추천"
          (profileString { grade := "중등", interest := "추리", level := "보통" })
          (pyListStr (fun s => s) [])
          (question_for_rag "책 추천" "추리소설 추천해줘"
            { grade := "중등", interest := "추리", level := "보통" })) :=
  claim_c1_amended "책 추천" "추리소설 추천해줘"
    { grade := "중등", interest := "추리", level := "보통" }
    (fun _ => Except.ok []) (fun s => s) (fun s => Except.ok s) [] rfl

/-- C5: when the generation step raises, the turn handler stops before the
assistant append, so the history after the turn is the input history plus
the user entry only — no assistant entry is added on error. -/
theorem claim_c5_no_assistant_on_error
    (invoke : ChainInput → Except PipelineError String)
    (menu : String) (p : StudentProfile)
    (messages : List Message) (user_input : String) (e : PipelineError)
    (h : invoke (invokeInput menu user_input p) = Except.error e) :
    (chatTurn invoke menu p messages user_input).1
      = messages ++ [{ role := "user", content := user_input }] ∧
    ∀ m ∈ (chatTurn invoke menu p messages user_input).1,
      m.role = "assistant" → m ∈ messages := by
  have hfst : (chatTurn invoke menu p messages user_input).1
      = messages ++ [{ role := "user", content := user_input }] := by
    simp [chatTurn, h]
  refine ⟨hfst, ?_⟩
  intro m hm hrole
  rw [hfst] at hm
  rcases List.mem_append.mp hm with hold | hnew
  · exact hold
  · simp at hnew
    rw [hnew] at hrole
    simp at hrole

theorem claim_c5_witness :
    (chatTurn (fun _ => Except.error PipelineError.generationFailed) "독서활동"
        { grade := "없음", interest := "", level := "없음" } [] "독후감 도와줘").1
      = [] ++ [{ role := "user", content := "독후감 도와줘" }] ∧
    ∀ m ∈ (chatTurn (fun _ => Except.error PipelineError.generationFailed)
        "독서활동" { grade := "없음", interest := "", level := "없음" }
        [] "독후감 도와줘").1,
      m.role = "assistant" → m ∈ ([] : List Message) :=
  claim_c5_no_assistant_on_error
    (fun _ => Except.error PipelineError.generationFailed) "독서활동"
    { grade := "없음", interest := "", level := "없음" } [] "독후감 도와줘"
    PipelineError.generationFailed rfl

/-- C6: when the retrieval step fails with RetrievalUnavailable, the chain
aborts before any prompt rendering and returns that same typed error — for
every call the policy is the same (propagate), never a half-rendered
document and never an untyped crash. -/
theorem claim_c6_retrieval_error_propagates
    (retrieve : String → Except PipelineError (List String))
    (docRepr : String → String)
    (llm : String → Except PipelineError String)
    (x : ChainInput)
    (h : retrieve x.question = Except.error PipelineError.retrievalUnavailable) :
    rag_chain_invoke retrieve docRepr llm x
      = Except.error PipelineError.retrievalUnavailable := by
  unfold rag_chain_invoke
  rw [h]
  rfl

theorem claim_c6_witness :
    rag_chain_invoke (fun _ => Except.error PipelineError.retrievalUnavailable)
        (fun s => s) (fun s => Except.ok s)
        (invokeInput "도서관 이용 안내" "대출 규정 알려줘"
          { grade := "없음", interest := "", level := "없음" })
      = Except.error PipelineError.retrievalUnavailable :=
  claim_c6_retrieval_error_propagates
    (fun _ => Except.error PipelineError.retrievalUnavailable)
    (fun s => s) (fun s => Except.ok s)
    (invokeInput "도서관 이용 안내" "대출 규정 알려줘"
      { grade := "없음", interest := "", level := "없음" }) rfl

/-- Helper: a string written as `a ++ m ++ b` has `m` as an infix of its
character data. -/
theorem data_infix_append (a m b : String) : m.data <:+: (a ++ m ++ b).data :=
  ⟨a.data, b.data, by simp [String.data_append]⟩

/-- Helper: infix via an explicit decomposition of the whole string. -/
theorem data_infix_of_eq (s a m b : String) (h : s = a ++ m ++ b) :
    m.data <:+: s.data := by
  rw [h]
  exact data_infix_append a m b

/-- C7 (corrected part): the claim says the context section renders as
empty for an empty passage sequence; the chain passes the raw list the
retriever returned into the `{context}` template variable, and Python
stringifies it, so an empty retrieval renders the two-character list
literal `[]`, not the empty string. -/
theorem claim_c7_counterexample :
    pyListStr (fun s => s) ([] : List String) ≠ "" := by
  decide

/-- C7 (amended): composing with an empty passage sequence still yields a
well-formed document: the function is total (no exception), the context
slot renders as the Python empty-list literal `[]` (present, not omitted,
but not the empty string), and every other section marker still occurs in
the rendered document, each on its own line. -/
theorem claim_c7_empty_passages (g menu prof q : String)
    (docRepr : String → String) :
    pyListStr docRepr ([] : List String) = "[]" ∧
    "\n\n[현재 기능]\n".data <:+: (renderPrompt g menu prof (pyListStr docRepr []) q).data ∧
    "\n\n[학생 정보]\n".data <:+: (renderPrompt g menu prof (pyListStr docRepr []) q).data ∧
    "\n\n[참고 문서]\n".data <:+: (renderPrompt g menu prof (pyListStr docRepr []) q).data ∧
    "\n\n[학생의 질문]\n".data <:+: (renderPrompt g menu prof (pyListStr docRepr []) q).data := by
  refine ⟨rfl, ?_, ?_, ?_, ?_⟩
  · exact data_infix_of_eq _ (BASE_PROMPT ++ "\n" ++ g) _
      (menu ++ "\n\n[학생 정보]\n" ++ prof ++ "\n\n[참고 문서]\n"
        ++ pyListStr docRepr [] ++ "\n\n[학생의 질문]\n" ++ q ++ "\n")
      (by simp [renderPrompt, String.append_assoc])
  · exact data_infix_of_eq _
      (BASE_PROMPT ++ "\n" ++ g ++ "\n\n[현재 기능]\n" ++ menu) _
      (prof ++ "\n\n[참고 문서]\n" ++ pyListStr docRepr []
        ++ "\n\n[학생의 질문]\n" ++ q ++ "\n")
      (by simp [renderPrompt, String.append_assoc])
  · exact data_infix_of_eq _
      (BASE_PROMPT ++ "\n" ++ g ++ "\n\n[현재 기능]\n" ++ menu
        ++ "\n\n[학생 정보]\n" ++ prof) _
      (pyListStr docRepr [] ++ "\n\n[학생의 질문]\n" ++ q ++ "\n")
      (by simp [renderPrompt, String.append_assoc])
  · exact data_infix_of_eq _
      (BASE_PROMPT ++ "\n" ++ g ++ "\n\n[현재 기능]\n" ++ menu
        ++ "\n\n[학생 정보]\n" ++ prof ++ "\n\n[참고 문서]\n"
        ++ pyListStr docRepr []) _
      (q ++ "\n")
      (by simp [renderPrompt, String.append_assoc])

/-- C8: once `chroma_db` exists and is non-empty, the provisioning step
returns immediately: the store state is unchanged and no download, unpack,
or any other action happens. -/
theorem claim_c8_idempotent (s : StoreState) (env : DownloadEnv)
    (h1 : s.chromaDirExists = true) (h2 : s.chromaDirNonempty = true) :
    download_and_unpack_chroma_db s env = (s, []) := by
  simp [download_and_unpack_chroma_db, h1, h2]

theorem claim_c8_witness :
    download_and_unpack_chroma_db
        { chromaDirExists := true, chromaDirNonempty := true, zipExists := false }
        { zipSize := 2000, badZip := false, extractedNonempty := true }
      = ({ chromaDirExists := true, chromaDirNonempty := true, zipExists := false }, []) :=
  claim_c8_idempotent
    { chromaDirExists := true, chromaDirNonempty := true, zipExists := false }
    { zipSize := 2000, badZip := false, extractedNonempty := true } rfl rfl

/-- Helper: the per-paragraph chunks always concatenate back to the
paragraph, whatever the fuel. -/
theorem wrapParaGo_join (fuel m : Nat) (p : List Char) :
    (wrapParaGo fuel m p).flatten = p := by
  induction fuel generalizing p with
  | zero => simp [wrapParaGo]
  | succ n ih =>
    rw [wrapParaGo]
    split
    · simp [ih, List.take_append_drop]
    · simp

/-- Helper: with `1 ≤ max_chars` and enough fuel, every chunk has at most
`max_chars` characters. -/
theorem wrapParaGo_length (m : Nat) (hm : 1 ≤ m) :
    ∀ (fuel : Nat) (p : List Char), p.length ≤ fuel →
      ∀ l ∈ wrapParaGo fuel m p, l.length ≤ m := by
  intro fuel
  induction fuel with
  | zero =>
    intro p hp l hl
    simp [wrapParaGo] at hl
    subst hl
    omega
  | succ n ih =>
    intro p hp l hl
    rw [wrapParaGo] at hl
    split at hl
    next hlt =>
      rcases List.mem_cons.mp hl with hhead | htail
      · subst hhead
        simp [List.length_take]
      · exact ih (p.drop m) (by simp [List.length_drop]; omega) l htail
    next hge =>
      simp at hl
      subst hl
      omega

/-- C9: for every input text and `max_chars ≥ 1`, every line produced by
`wrap_lines` has at most `max_chars` characters, and for each
newline-separated paragraph of the input the concatenation of the lines
produced for that paragraph is exactly the paragraph — no characters are
added or lost. -/
theorem claim_c9_wrap_lines (text : List Char) (m : Nat) (hm : 1 ≤ m) :
    (∀ line ∈ wrap_lines text m, line.length ≤ m) ∧
    (∀ para ∈ splitNl text, (wrapPara m para).flatten = para) := by
  constructor
  · intro line hline
    obtain ⟨para, _, hmem⟩ := List.mem_flatMap.mp hline
    exact wrapParaGo_length m hm para.length para le_rfl line hmem
  · intro para _
    exact wrapParaGo_join para.length m para

theorem claim_c9_witness :
    (∀ line ∈ wrap_lines "abcdef\ngh".data 3, line.length ≤ 3) ∧
    (∀ para ∈ splitNl "abcdef\ngh".data, (wrapPara 3 para).flatten = para) :=
  claim_c9_wrap_lines "abcdef\ngh".data 3 (by decide)
